import Mathlib

/-!
Verification of the bookem-heatmap Excel parsing pipeline
(`src/parse_excel.py`): a shallow embedding of its cell values, row
coercers, column detector, workbook loader and exporters, together with
theorems about the behaviour of those functions.
-/

namespace ParseExcel

/-- A cell value as produced by pandas when reading a worksheet: an
integer, a floating-point number (modelled exactly as a rational), or a
text string. -/
inductive Value where
  | int (n : Int)
  | float (q : Rat)
  | str (s : String)
  deriving DecidableEq, Repr

/-- A worksheet row as iterated by `df.iterrows()`: an association of
column names to cell values (a pandas `Series` indexed by the column
labels). -/
abbrev Row := List (String × Value)

/-- The exceptions raised and caught inside the row coercers:
`ValueError` from a failed numeric conversion and `KeyError` from a
missing column label. -/
inductive PyErr where
  | valueError (msg : String)
  | keyError (key : String)
  deriving DecidableEq, Repr

deriving instance DecidableEq for Except

/-- The text of an exception, as interpolated into the warning lines
`print(f"Warning: ... {e}")`. -/
def PyErr.describe : PyErr → String
  | .valueError m => m
  | .keyError k => k

/-- `row[col]`: label lookup in a row; raises `KeyError` when the label
is absent. -/
def getItem (r : Row) (k : String) : Except PyErr Value :=
  match r.lookup k with
  | some v => .ok v
  | none => .error (.keyError k)

/-- ASCII lowercasing, character by character: the effect of Python
`str.lower()` on the ASCII column names this pipeline handles. -/
def strLower (s : String) : String :=
  String.mk (s.data.map Char.toLower)

/-- Stripping leading and trailing whitespace from a character list:
the effect of Python `str.strip()` inside `float()`/`int()`. -/
def trimChars (cs : List Char) : List Char :=
  ((cs.dropWhile Char.isWhitespace).reverse.dropWhile Char.isWhitespace).reverse

/-- Numeric value of a list of decimal digit characters. -/
def natOfDigits (cs : List Char) : Nat :=
  cs.foldl (fun acc c => 10 * acc + (c.toNat - 48)) 0

/-- An unsigned decimal literal `digits[.digits]`, with at least one
digit present, as accepted by Python `float()`. -/
def parseUnsignedRat (cs : List Char) : Option Rat :=
  match cs.splitOn '.' with
  | [w] =>
    if w ≠ [] ∧ w.all Char.isDigit then some ((natOfDigits w : Int) : Rat) else none
  | [w, f] =>
    if (w ≠ [] ∨ f ≠ []) ∧ w.all Char.isDigit ∧ f.all Char.isDigit then
      some (((natOfDigits w : Int) : Rat) + ((natOfDigits f : Int) : Rat) / ((10 : Rat) ^ f.length))
    else none
  | _ => none

/-- Python `float(s)` on a string: optional sign, then an unsigned
decimal literal, surrounding whitespace stripped (exotic forms such as
exponents or infinities are outside the data this pipeline handles). -/
def pyParseFloat (s : String) : Option Rat :=
  match trimChars s.data with
  | '+' :: rest => parseUnsignedRat rest
  | '-' :: rest => (parseUnsignedRat rest).map Neg.neg
  | cs => parseUnsignedRat cs

/-- Python `int(s)` on a string: optional sign then decimal digits only
(a fractional part is rejected), surrounding whitespace stripped. -/
def pyParseInt (s : String) : Option Int :=
  match trimChars s.data with
  | '+' :: rest =>
    if rest ≠ [] ∧ rest.all Char.isDigit then some (natOfDigits rest) else none
  | '-' :: rest =>
    if rest ≠ [] ∧ rest.all Char.isDigit then some (-(natOfDigits rest : Int)) else none
  | cs =>
    if cs ≠ [] ∧ cs.all Char.isDigit then some (natOfDigits cs) else none

/-- Truncation of a rational toward zero, the behaviour of Python
`int()` applied to a float. -/
def ratTrunc (q : Rat) : Int :=
  if 0 ≤ q then ⌊q⌋ else -⌊-q⌋

/-- Python `float(v)` on a cell value: numbers convert exactly, strings
are parsed as decimal literals, anything else is a `ValueError`. -/
def pyFloat : Value → Except PyErr Rat
  | .int n => .ok (n : Rat)
  | .float q => .ok q
  | .str s =>
    match pyParseFloat s with
    | some q => .ok q
    | none => .error (.valueError ("could not convert string to float: " ++ s))

/-- Python `int(v)` on a cell value: integers pass through, floats
truncate toward zero, strings must be pure integer literals. -/
def pyInt : Value → Except PyErr Int
  | .int n => .ok n
  | .float q => .ok (ratTrunc q)
  | .str s =>
    match pyParseInt s with
    | some n => .ok n
    | none => .error (.valueError ("invalid literal for int with base 10: " ++ s))

/-- Python `str(v)` on a cell value; never fails.  The textual rendering
of a float is abstracted as the exact rendering of the rational. -/
def pyStr : Value → String
  | .int n => toString n
  | .float q => toString q
  | .str s => s

/-- A book distribution point record as built by `parse_book_data`. -/
structure BookPoint where
  lat : Rat
  lng : Rat
  count : Int
  deriving DecidableEq, Repr

/-- A volunteer record as built by `parse_volunteers`. -/
structure Volunteer where
  id : Int
  lat : Rat
  lng : Rat
  name : String
  books : Int
  deriving DecidableEq, Repr

/-- A school record as built by `parse_schools`. -/
structure School where
  id : Int
  lat : Rat
  lng : Rat
  name : String
  students : Int
  deriving DecidableEq, Repr

/-- The body of the `try` block in `parse_book_data`: build the record
`{lat: float(row[lat_col]), lng: float(row[lng_col]),
count: int(row[count_col])}`, propagating the first `ValueError` or
`KeyError` raised. -/
def coerceBook (lat_col lng_col count_col : String) (r : Row) :
    Except PyErr BookPoint := do
  let lat ← pyFloat (← getItem r lat_col)
  let lng ← pyFloat (← getItem r lng_col)
  let count ← pyInt (← getItem r count_col)
  return ⟨lat, lng, count⟩

/-- The warning line printed by `parse_book_data` for a skipped row. -/
def bookWarn (e : PyErr) : String :=
  "Warning: Skipping row due to error: " ++ e.describe

/-- The `for _, row in df.iterrows()` loop of `parse_book_data`,
returning the accumulated records together with the warning lines
printed for skipped rows. -/
def parseBookRows (lat_col lng_col count_col : String) :
    List Row → List BookPoint × List String
  | [] => ([], [])
  | r :: rest =>
    let tail := parseBookRows lat_col lng_col count_col rest
    match coerceBook lat_col lng_col count_col r with
    | .ok b => (b :: tail.1, tail.2)
    | .error e => (tail.1, bookWarn e :: tail.2)

/-- `parse_book_data(df, lat_col, lng_col, count_col)` from
`src/parse_excel.py`: coerce each row, skipping (with a warning) any row
raising `ValueError` or `KeyError`. -/
def parse_book_data (df : List Row) (lat_col : String := "lat")
    (lng_col : String := "lng") (count_col : String := "count") :
    List BookPoint × List String :=
  parseBookRows lat_col lng_col count_col df

/-- The body of the `try` block in `parse_volunteers` at row index
`idx`: `volunteer_id = int(row[id_col]) if id_col in row else idx + 1`,
then the record fields in source order. -/
def coerceVolunteer (id_col lat_col lng_col name_col books_col : String)
    (idx : Nat) (r : Row) : Except PyErr Volunteer := do
  let volunteer_id ←
    match r.lookup id_col with
    | some v => pyInt v
    | none => pure ((idx : Int) + 1)
  let lat ← pyFloat (← getItem r lat_col)
  let lng ← pyFloat (← getItem r lng_col)
  let name := pyStr (← getItem r name_col)
  let books ← pyInt (← getItem r books_col)
  return ⟨volunteer_id, lat, lng, name, books⟩

/-- The warning line printed by `parse_volunteers` for a skipped row. -/
def volunteerWarn (e : PyErr) : String :=
  "Warning: Skipping volunteer row due to error: " ++ e.describe

/-- The `for idx, row in df.iterrows()` loop of `parse_volunteers`,
with `idx` the 0-based position of the row (the default `RangeIndex` of
a freshly read DataFrame). -/
def parseVolunteerRows (id_col lat_col lng_col name_col books_col : String) :
    Nat → List Row → List Volunteer × List String
  | _, [] => ([], [])
  | idx, r :: rest =>
    let tail := parseVolunteerRows id_col lat_col lng_col name_col books_col (idx + 1) rest
    match coerceVolunteer id_col lat_col lng_col name_col books_col idx r with
    | .ok v => (v :: tail.1, tail.2)
    | .error e => (tail.1, volunteerWarn e :: tail.2)

/-- `parse_volunteers(df, id_col, lat_col, lng_col, name_col,
books_col)` from `src/parse_excel.py`. -/
def parse_volunteers (df : List Row) (id_col : String := "id")
    (lat_col : String := "lat") (lng_col : String := "lng")
    (name_col : String := "name") (books_col : String := "books") :
    List Volunteer × List String :=
  parseVolunteerRows id_col lat_col lng_col name_col books_col 0 df

/-- The body of the `try` block in `parse_schools` at row index `idx`. -/
def coerceSchool (id_col lat_col lng_col name_col students_col : String)
    (idx : Nat) (r : Row) : Except PyErr School := do
  let school_id ←
    match r.lookup id_col with
    | some v => pyInt v
    | none => pure ((idx : Int) + 1)
  let lat ← pyFloat (← getItem r lat_col)
  let lng ← pyFloat (← getItem r lng_col)
  let name := pyStr (← getItem r name_col)
  let students ← pyInt (← getItem r students_col)
  return ⟨school_id, lat, lng, name, students⟩

/-- The warning line printed by `parse_schools` for a skipped row. -/
def schoolWarn (e : PyErr) : String :=
  "Warning: Skipping school row due to error: " ++ e.describe

/-- The `for idx, row in df.iterrows()` loop of `parse_schools`. -/
def parseSchoolRows (id_col lat_col lng_col name_col students_col : String) :
    Nat → List Row → List School × List String
  | _, [] => ([], [])
  | idx, r :: rest =>
    let tail := parseSchoolRows id_col lat_col lng_col name_col students_col (idx + 1) rest
    match coerceSchool id_col lat_col lng_col name_col students_col idx r with
    | .ok s => (s :: tail.1, tail.2)
    | .error e => (tail.1, schoolWarn e :: tail.2)

/-- `parse_schools(df, id_col, lat_col, lng_col, name_col,
students_col)` from `src/parse_excel.py`. -/
def parse_schools (df : List Row) (id_col : String := "id")
    (lat_col : String := "lat") (lng_col : String := "lng")
    (name_col : String := "name") (students_col : String := "students") :
    List School × List String :=
  parseSchoolRows id_col lat_col lng_col name_col students_col 0 df

/-- A worksheet DataFrame: its column labels (`df.columns`) and its rows
(`df.iterrows()` with the default 0-based `RangeIndex`). -/
structure DataFrame where
  cols : List String
  rows : List Row
  deriving DecidableEq, Repr

/-- Lookup in a Python dict represented as its insertion sequence: a
later binding of the same key overwrites an earlier one, so the LAST
binding wins. -/
def dictGet (l : List (String × String)) (k : String) : Option String :=
  l.reverse.lookup k

/-- The dict comprehension
`columns_lower = \x7bcol.lower(): col for col in df.columns\x7d`. -/
def columnsLower (df : DataFrame) : List (String × String) :=
  df.cols.map (fun col => (strLower col, col))

/-- One `for pattern in [...]: if pattern in columns_lower: ... break`
scan in `auto_detect_columns`: the value of `columns_lower[pattern]` for
the first pattern present, or `none` when no pattern matches. -/
def detectRole (cl : List (String × String)) : List String → Option String
  | [] => none
  | p :: rest =>
    match dictGet cl p with
    | some col => some col
    | none => detectRole cl rest

/-- A found role contributes one binding to the mapping dict; a missing
role contributes nothing. -/
def roleEntry (role : String) : Option String → List (String × String)
  | some col => [(role, col)]
  | none => []

/-- `auto_detect_columns(df, data_type)` from `src/parse_excel.py`:
build the case-insensitive column index and scan each role's fixed
pattern list, first match wins. -/
def auto_detect_columns (df : DataFrame) (data_type : String) :
    List (String × String) :=
  let cl := columnsLower df
  if data_type = "books" then
    roleEntry "lat" (detectRole cl ["lat", "latitude", "y", "coord_y"]) ++
    roleEntry "lng" (detectRole cl ["lng", "lon", "long", "longitude", "x", "coord_x"]) ++
    roleEntry "count" (detectRole cl ["count", "books", "book_count", "quantity", "num"])
  else if data_type = "volunteers" then
    roleEntry "id" (detectRole cl ["id", "volunteer_id", "vol_id"]) ++
    roleEntry "lat" (detectRole cl ["lat", "latitude", "y"]) ++
    roleEntry "lng" (detectRole cl ["lng", "lon", "long", "longitude", "x"]) ++
    roleEntry "name" (detectRole cl ["name", "volunteer_name", "vol_name", "full_name"]) ++
    roleEntry "books" (detectRole cl ["books", "book_count", "books_distributed"])
  else if data_type = "schools" then
    roleEntry "id" (detectRole cl ["id", "school_id"]) ++
    roleEntry "lat" (detectRole cl ["lat", "latitude", "y"]) ++
    roleEntry "lng" (detectRole cl ["lng", "lon", "long", "longitude", "x"]) ++
    roleEntry "name" (detectRole cl ["name", "school_name", "school"]) ++
    roleEntry "students" (detectRole cl ["students", "student_count", "num_students"])
  else []

/-- Python truthiness of `x or default` on an optional sheet name:
`None` and the empty string fall through to the default. -/
def pyOr (x : Option String) (default : String) : String :=
  match x with
  | some s => if s = "" then default else s
  | none => default

/-- The error raised by `parse_excel_file` before any parsing:
`FileNotFoundError`. -/
inductive LoadErr where
  | notFound (msg : String)
  deriving DecidableEq, Repr

/-- The aggregate returned by `parse_excel_file`. -/
structure ParseResult where
  bookData : List BookPoint
  volunteers : List Volunteer
  schools : List School
  deriving DecidableEq, Repr

/-- Sheet resolution for books:
`sheet_names['books'] or available_sheets[0]`. -/
def resolveBooksSheet (sel : Option String) (available_sheets : List String) : String :=
  pyOr sel (available_sheets.getD 0 "")

/-- Sheet resolution for volunteers: `sheet_names['volunteers'] or
(available_sheets[1] if len(available_sheets) > 1 else
available_sheets[0])`. -/
def resolveVolunteersSheet (sel : Option String) (available_sheets : List String) : String :=
  pyOr sel
    (if available_sheets.length > 1 then available_sheets.getD 1 ""
     else available_sheets.getD 0 "")

/-- Sheet resolution for schools: `sheet_names['schools'] or
(available_sheets[2] if len(available_sheets) > 2 else
available_sheets[0])`. -/
def resolveSchoolsSheet (sel : Option String) (available_sheets : List String) : String :=
  pyOr sel
    (if available_sheets.length > 2 then available_sheets.getD 2 ""
     else available_sheets.getD 0 "")

/-- `mapping.get(role, default)` on a resolved column mapping dict. -/
def mappingGet (mapping : List (String × String)) (role default : String) : String :=
  (dictGet mapping role).getD default

/-- The books section of `parse_excel_file`: resolve the sheet, skip
silently when it is not among the available sheets, auto-detect the
column mapping when none is supplied, and run `parse_book_data`. -/
def loadBooks (sheets : List (String × DataFrame))
    (sheet_names : List (String × Option String))
    (column_mappings : List (String × List (String × String))) : List BookPoint :=
  match sheet_names.lookup "books" with
  | none => []
  | some sel =>
    let available_sheets := sheets.map (·.1)
    let sheet_name := resolveBooksSheet sel available_sheets
    if sheet_name ∈ available_sheets then
      let df := (sheets.lookup sheet_name).getD ⟨[], []⟩
      let mapping :=
        match column_mappings.lookup "books" with
        | some m => m
        | none => auto_detect_columns df "books"
      (parse_book_data df.rows (mappingGet mapping "lat" "lat")
        (mappingGet mapping "lng" "lng") (mappingGet mapping "count" "count")).1
    else []

/-- The volunteers section of `parse_excel_file`. -/
def loadVolunteers (sheets : List (String × DataFrame))
    (sheet_names : List (String × Option String))
    (column_mappings : List (String × List (String × String))) : List Volunteer :=
  match sheet_names.lookup "volunteers" with
  | none => []
  | some sel =>
    let available_sheets := sheets.map (·.1)
    let sheet_name := resolveVolunteersSheet sel available_sheets
    if sheet_name ∈ available_sheets then
      let df := (sheets.lookup sheet_name).getD ⟨[], []⟩
      let mapping :=
        match column_mappings.lookup "volunteers" with
        | some m => m
        | none => auto_detect_columns df "volunteers"
      (parse_volunteers df.rows (mappingGet mapping "id" "id")
        (mappingGet mapping "lat" "lat") (mappingGet mapping "lng" "lng")
        (mappingGet mapping "name" "name") (mappingGet mapping "books" "books")).1
    else []

/-- The schools section of `parse_excel_file`. -/
def loadSchools (sheets : List (String × DataFrame))
    (sheet_names : List (String × Option String))
    (column_mappings : List (String × List (String × String))) : List School :=
  match sheet_names.lookup "schools" with
  | none => []
  | some sel =>
    let available_sheets := sheets.map (·.1)
    let sheet_name := resolveSchoolsSheet sel available_sheets
    if sheet_name ∈ available_sheets then
      let df := (sheets.lookup sheet_name).getD ⟨[], []⟩
      let mapping :=
        match column_mappings.lookup "schools" with
        | some m => m
        | none => auto_detect_columns df "schools"
      (parse_schools df.rows (mappingGet mapping "id" "id")
        (mappingGet mapping "lat" "lat") (mappingGet mapping "lng" "lng")
        (mappingGet mapping "name" "name") (mappingGet mapping "students" "students")).1
    else []

/-- The default `sheet_names` dict filled in when the caller passes
`None`: all three dataset kinds present, each mapped to `None`. -/
def defaultSheetNames : List (String × Option String) :=
  [("books", none), ("volunteers", none), ("schools", none)]

/-- `parse_excel_file(file_path, sheet_names, column_mappings)` from
`src/parse_excel.py`.  The filesystem and the opened workbook are
modelled by `fileExists` and by `sheets`, the workbook's worksheets in
tab order (name and contents); Excel guarantees a workbook has at least
one sheet and pairwise distinct sheet names. -/
def parse_excel_file (file_path : String) (fileExists : Bool)
    (sheets : List (String × DataFrame))
    (sheet_names : Option (List (String × Option String)) := none)
    (column_mappings : Option (List (String × List (String × String))) := none) :
    Except LoadErr ParseResult :=
  if !fileExists then
    .error (.notFound ("Excel file not found: " ++ file_path))
  else
    let sn := sheet_names.getD defaultSheetNames
    let cm := column_mappings.getD []
    .ok ⟨loadBooks sheets sn cm, loadVolunteers sheets sn cm, loadSchools sheets sn cm⟩

/-- A JSON document, as built by `json.dump`/`json.dumps`; Python keeps
ints and floats distinct in JSON text, so the model does too. -/
inductive Json where
  | jint (n : Int)
  | jfloat (q : Rat)
  | jstr (s : String)
  | jarr (items : List Json)
  | jobj (fields : List (String × Json))

/-- Lowercase hexadecimal digit. -/
def hexDigit (n : Nat) : Char :=
  if n < 10 then Char.ofNat (48 + n) else Char.ofNat (97 + (n - 10))

/-- Four lowercase hexadecimal digits, as in a JSON `\uXXXX` escape. -/
def hex4 (n : Nat) : String :=
  String.mk [hexDigit (n / 4096 % 16), hexDigit (n / 256 % 16),
    hexDigit (n / 16 % 16), hexDigit (n % 16)]

/-- `json.dumps` escaping of one character (default `ensure_ascii`):
quote and backslash escaped, the named control escapes, every other
character outside the printable ASCII range as `\uXXXX` (a surrogate
pair beyond the basic plane). -/
def escapeChar (c : Char) : String :=
  if c = '"' then "\\\""
  else if c = '\\' then "\\\\"
  else if c.toNat = 8 then "\\b"
  else if c.toNat = 9 then "\\t"
  else if c.toNat = 10 then "\\n"
  else if c.toNat = 12 then "\\f"
  else if c.toNat = 13 then "\\r"
  else if c.toNat < 32 ∨ c.toNat > 126 then
    if c.toNat ≥ 65536 then
      "\\u" ++ hex4 (55296 + (c.toNat - 65536) / 1024) ++
      "\\u" ++ hex4 (56320 + (c.toNat - 65536) % 1024)
    else "\\u" ++ hex4 c.toNat
  else String.singleton c

/-- A JSON string literal: the escaped characters between quotes. -/
def jsonQuote (s : String) : String :=
  "\"" ++ String.join (s.toList.map escapeChar) ++ "\""

/-- `n` spaces. -/
def spaces (n : Nat) : String :=
  String.mk (List.replicate n ' ')

mutual

/-- `json.dumps(j, indent=2)` at nesting depth `level`: scalars render
inline, non-empty containers put each element on its own line indented
two spaces deeper (the float rendering is abstracted as the exact
rational rendering). -/
def dumpJson (level : Nat) : Json → String
  | .jint n => toString n
  | .jfloat q => toString q
  | .jstr s => jsonQuote s
  | .jarr [] => "[]"
  | .jarr (x :: xs) =>
    "[\n" ++ dumpItems (level + 1) x xs ++ "\n" ++ spaces (2 * level) ++ "]"
  | .jobj [] => "\x7b\x7d"
  | .jobj ((k, v) :: fs) =>
    "\x7b\n" ++ dumpFields (level + 1) k v fs ++ "\n" ++ spaces (2 * level) ++ "\x7d"
termination_by j => sizeOf j

/-- The comma-and-newline separated items of a non-empty JSON array. -/
def dumpItems (level : Nat) (x : Json) (xs : List Json) : String :=
  match xs with
  | [] => spaces (2 * level) ++ dumpJson level x
  | y :: ys => spaces (2 * level) ++ dumpJson level x ++ ",\n" ++ dumpItems level y ys
termination_by 1 + sizeOf x + sizeOf xs

/-- The comma-and-newline separated fields of a non-empty JSON object. -/
def dumpFields (level : Nat) (k : String) (v : Json) (fs : List (String × Json)) : String :=
  match fs with
  | [] => spaces (2 * level) ++ jsonQuote k ++ ": " ++ dumpJson level v
  | (k2, v2) :: gs =>
    spaces (2 * level) ++ jsonQuote k ++ ": " ++ dumpJson level v ++ ",\n" ++
    dumpFields level k2 v2 gs
termination_by 1 + sizeOf v + sizeOf fs

end

/-- The JSON object a `BookPoint` record serialises to. -/
def bookPointToJson (b : BookPoint) : Json :=
  .jobj [("lat", .jfloat b.lat), ("lng", .jfloat b.lng), ("count", .jint b.count)]

/-- The JSON object a `Volunteer` record serialises to. -/
def volunteerToJson (v : Volunteer) : Json :=
  .jobj [("id", .jint v.id), ("lat", .jfloat v.lat), ("lng", .jfloat v.lng),
    ("name", .jstr v.name), ("books", .jint v.books)]

/-- The JSON object a `School` record serialises to. -/
def schoolToJson (s : School) : Json :=
  .jobj [("id", .jint s.id), ("lat", .jfloat s.lat), ("lng", .jfloat s.lng),
    ("name", .jstr s.name), ("students", .jint s.students)]

/-- The JSON document `json.dump(data, f, indent=2)` writes in
`export_to_json`: one object with the keys `bookData`, `volunteers` and
`schools`, each an array of record objects. -/
def aggregateToJson (d : ParseResult) : Json :=
  .jobj [("bookData", .jarr (d.bookData.map bookPointToJson)),
    ("volunteers", .jarr (d.volunteers.map volunteerToJson)),
    ("schools", .jarr (d.schools.map schoolToJson))]

/-- `export_to_json(data, output_path)` from `src/parse_excel.py`: the
text written to the output file. -/
def export_to_json (d : ParseResult) : String :=
  dumpJson 0 (aggregateToJson d)

/-- Modelled from the spec: reading an exported JSON book-point object
back into a record, as `json.loads` followed by structural field access
would (the JSON reader itself is Python's standard library, not part of
this repository). -/
def jsonToBookPoint : Json → Option BookPoint
  | .jobj [("lat", .jfloat lat), ("lng", .jfloat lng), ("count", .jint count)] =>
    some ⟨lat, lng, count⟩
  | _ => none

/-- Modelled from the spec: reading an exported volunteer object back. -/
def jsonToVolunteer : Json → Option Volunteer
  | .jobj [("id", .jint id), ("lat", .jfloat lat), ("lng", .jfloat lng),
      ("name", .jstr name), ("books", .jint books)] =>
    some ⟨id, lat, lng, name, books⟩
  | _ => none

/-- Modelled from the spec: reading an exported school object back. -/
def jsonToSchool : Json → Option School
  | .jobj [("id", .jint id), ("lat", .jfloat lat), ("lng", .jfloat lng),
      ("name", .jstr name), ("students", .jint students)] =>
    some ⟨id, lat, lng, name, students⟩
  | _ => none

/-- Modelled from the spec: reading every element of an exported JSON
array back, failing when any element does not have the expected record
shape. -/
def readBackList (f : Json → Option α) : List Json → Option (List α)
  | [] => some []
  | j :: js => do
    let a ← f j
    let rest ← readBackList f js
    return a :: rest

/-- Modelled from the spec: reading an exported aggregate document back
into the three record collections — the parse-back direction of the
spec's round-trip property. -/
def jsonToAggregate : Json → Option ParseResult
  | .jobj [("bookData", .jarr bs), ("volunteers", .jarr vs), ("schools", .jarr ss)] => do
    let bookData ← readBackList jsonToBookPoint bs
    let volunteers ← readBackList jsonToVolunteer vs
    let schools ← readBackList jsonToSchool ss
    return ⟨bookData, volunteers, schools⟩
  | _ => none

/-- `export_to_typescript(data, output_path)` from `src/parse_excel.py`:
the text written to the output file, one `f.write` at a time. -/
def export_to_typescript (d : ParseResult) : String :=
  "// Auto-generated from Excel file\n" ++
  "// Book Data\n" ++
  "export const bookData = " ++
  dumpJson 0 (.jarr (d.bookData.map bookPointToJson)) ++
  ";\n\n" ++
  "// Volunteers\n" ++
  "export const volunteers = " ++
  dumpJson 0 (.jarr (d.volunteers.map volunteerToJson)) ++
  ";\n\n" ++
  "// Schools\n" ++
  "export const schools = " ++
  dumpJson 0 (.jarr (d.schools.map schoolToJson)) ++
  ";\n"

/-- An `export const` declaration of `export_to_typescript`, written as
the spec describes it: a named exported constant initialised to a
JSON-literal array and terminated with a semicolon. -/
def tsDeclaration (name : String) (items : List Json) : String :=
  "export const " ++ name ++ " = " ++ dumpJson 0 (.jarr items) ++ ";"

/-- The output-format dispatch of `main`: from `sys.argv[2]` (absent
when fewer than three arguments) and `sys.argv[3]`, the path written to
and the file content produced — TypeScript export when the lowercased
format is `ts` or `typescript`, JSON export otherwise. -/
def mainExport (data : ParseResult) (argv_format : Option String)
    (argv_out : Option String) : String × String :=
  let output_format := argv_format.getD "json"
  if strLower output_format = "ts" ∨ strLower output_format = "typescript" then
    (pyOr argv_out "data.ts", export_to_typescript data)
  else
    (pyOr argv_out "data.json", export_to_json data)

/-- The warning a coercion outcome contributes: none for a kept row,
one formatted message for a dropped row. -/
def warnOf (w : PyErr → String) : Except PyErr α → Option String
  | .ok _ => none
  | .error e => some (w e)

/-- Following the spec's words for the detector ("assign the first
candidate that matches and stop scanning"), resolved to the column the
code's case-insensitive index actually stores: the LAST column whose
lowercased name equals the candidate. -/
def firstMatch (cols : List String) : List String → Option String
  | [] => none
  | p :: ps =>
    match cols.reverse.find? (fun c => strLower c == p) with
    | some c => some c
    | none => firstMatch cols ps

/-! ### Helper lemmas -/

theorem parseBookRows_eq (l g c : String) (df : List Row) :
    parseBookRows l g c df =
      (df.filterMap (fun r => (coerceBook l g c r).toOption),
       df.filterMap (fun r => warnOf bookWarn (coerceBook l g c r))) := by
  induction df with
  | nil => rfl
  | cons r rest ih =>
    simp only [parseBookRows, ih, List.filterMap_cons]
    cases h : coerceBook l g c r <;> simp [Except.toOption, warnOf]

theorem parseVolunteerRows_eq (i l g n b : String) (k : Nat) (df : List Row) :
    parseVolunteerRows i l g n b k df =
      ((df.enumFrom k).filterMap (fun p => (coerceVolunteer i l g n b p.1 p.2).toOption),
       (df.enumFrom k).filterMap (fun p => warnOf volunteerWarn (coerceVolunteer i l g n b p.1 p.2))) := by
  induction df generalizing k with
  | nil => rfl
  | cons r rest ih =>
    simp only [parseVolunteerRows, ih, List.enumFrom, List.filterMap_cons]
    cases h : coerceVolunteer i l g n b k r <;> simp [Except.toOption, warnOf]

theorem parseSchoolRows_eq (i l g n s : String) (k : Nat) (df : List Row) :
    parseSchoolRows i l g n s k df =
      ((df.enumFrom k).filterMap (fun p => (coerceSchool i l g n s p.1 p.2).toOption),
       (df.enumFrom k).filterMap (fun p => warnOf schoolWarn (coerceSchool i l g n s p.1 p.2))) := by
  induction df generalizing k with
  | nil => rfl
  | cons r rest ih =>
    simp only [parseSchoolRows, ih, List.enumFrom, List.filterMap_cons]
    cases h : coerceSchool i l g n s k r <;> simp [Except.toOption, warnOf]

theorem parseBookRows_length (l g c : String) (df : List Row) :
    (parseBookRows l g c df).1.length + (parseBookRows l g c df).2.length = df.length := by
  induction df with
  | nil => rfl
  | cons r rest ih =>
    simp only [parseBookRows]
    cases h : coerceBook l g c r <;> simp <;> omega

theorem parseSchoolRows_length (i l g n s : String) (k : Nat) (df : List Row) :
    (parseSchoolRows i l g n s k df).1.length + (parseSchoolRows i l g n s k df).2.length =
      df.length := by
  induction df generalizing k with
  | nil => rfl
  | cons r rest ih =>
    have hre := ih (k + 1)
    simp only [parseSchoolRows]
    cases h : coerceSchool i l g n s k r <;> simp <;> omega

theorem coerceVolunteer_default_id (i l g n b : String) (idx : Nat) (r : Row) (v : Volunteer)
    (hl : r.lookup i = none) (h : coerceVolunteer i l g n b idx r = .ok v) :
    v.id = (idx : Int) + 1 := by
  unfold coerceVolunteer at h
  rw [hl] at h
  simp only [Except.instMonad, Except.bind, Except.pure, pure, bind] at h
  repeat' split at h
  all_goals first
    | exact Except.noConfusion h
    | (injection h with h; subst h; rfl)

theorem coerceSchool_default_id (i l g n s : String) (idx : Nat) (r : Row) (v : School)
    (hl : r.lookup i = none) (h : coerceSchool i l g n s idx r = .ok v) :
    v.id = (idx : Int) + 1 := by
  unfold coerceSchool at h
  rw [hl] at h
  simp only [Except.instMonad, Except.bind, Except.pure, pure, bind] at h
  repeat' split at h
  all_goals first
    | exact Except.noConfusion h
    | (injection h with h; subst h; rfl)

theorem coerceVolunteer_present_id (i l g n b : String) (idx : Nat) (r : Row) (x : Value)
    (v : Volunteer) (hl : r.lookup i = some x) (h : coerceVolunteer i l g n b idx r = .ok v) :
    pyInt x = .ok v.id := by
  unfold coerceVolunteer at h
  rw [hl] at h
  simp only [Except.instMonad, Except.bind, Except.pure, pure, bind] at h
  repeat' split at h
  all_goals first
    | exact Except.noConfusion h
    | (injection h with h; subst h; assumption)

theorem coerceSchool_present_id (i l g n s : String) (idx : Nat) (r : Row) (x : Value)
    (v : School) (hl : r.lookup i = some x) (h : coerceSchool i l g n s idx r = .ok v) :
    pyInt x = .ok v.id := by
  unfold coerceSchool at h
  rw [hl] at h
  simp only [Except.instMonad, Except.bind, Except.pure, pure, bind] at h
  repeat' split at h
  all_goals first
    | exact Except.noConfusion h
    | (injection h with h; subst h; assumption)

theorem coerceVolunteer_bad_id (i l g n b : String) (idx : Nat) (r : Row) (x : Value)
    (e : PyErr) (hl : r.lookup i = some x) (he : pyInt x = .error e) :
    coerceVolunteer i l g n b idx r = .error e := by
  unfold coerceVolunteer
  simp only [hl, he, Except.instMonad, Except.bind, Except.pure, pure, bind]

theorem coerceSchool_bad_id (i l g n s : String) (idx : Nat) (r : Row) (x : Value)
    (e : PyErr) (hl : r.lookup i = some x) (he : pyInt x = .error e) :
    coerceSchool i l g n s idx r = .error e := by
  unfold coerceSchool
  simp only [hl, he, Except.instMonad, Except.bind, Except.pure, pure, bind]

theorem lookup_map_toLower (k : String) (ds : List String) :
    (ds.map fun c => (strLower c, c)).lookup k = ds.find? (fun c => strLower c == k) := by
  induction ds with
  | nil => rfl
  | cons d ds ih =>
    simp only [List.map_cons, List.lookup, List.find?]
    by_cases h : strLower d = k
    · simp [h]
    · have h1 : (k == strLower d) = false := by
        simp only [beq_eq_false_iff_ne]
        exact Ne.symm h
      have h2 : (strLower d == k) = false := by
        simp [beq_eq_false_iff_ne, h]
      rw [h1, h2, ih]

theorem dictGet_map_toLower (df : DataFrame) (k : String) :
    dictGet (columnsLower df) k = df.cols.reverse.find? (fun c => strLower c == k) := by
  unfold dictGet columnsLower
  rw [← List.map_reverse, lookup_map_toLower]

theorem detectRole_eq_firstMatch (df : DataFrame) (pats : List String) :
    detectRole (columnsLower df) pats = firstMatch df.cols pats := by
  induction pats with
  | nil => rfl
  | cons p ps ih =>
    simp only [detectRole, firstMatch, dictGet_map_toLower]
    cases df.cols.reverse.find? (fun c => strLower c == p) <;> simp [ih]

theorem roleEntry_key (role : String) (x : Option String) (p : String × String)
    (h : p ∈ roleEntry role x) : p.1 = role := by
  cases x <;> simp [roleEntry] at h
  subst h
  rfl

theorem lookup_append_or (l₁ l₂ : List (String × String)) (k : String) :
    (l₁ ++ l₂).lookup k = (l₁.lookup k).or (l₂.lookup k) := by
  induction l₁ with
  | nil => simp [List.lookup]
  | cons p l ih =>
    simp only [List.cons_append, List.lookup]
    cases k == p.1 <;> simp [ih]

theorem lookup_eq_none_of_keys_ne (l : List (String × String)) (k : String)
    (h : ∀ p ∈ l, p.1 ≠ k) : l.lookup k = none := by
  induction l with
  | nil => rfl
  | cons p l ih =>
    have hp : p.1 ≠ k := h p (by simp)
    have h1 : (k == p.1) = false := by simp [beq_eq_false_iff_ne, Ne.symm hp]
    simp only [List.lookup, h1]
    exact ih (fun q hq => h q (by simp [hq]))

theorem dictGet_append_right_ne (l₁ l₂ : List (String × String)) (k : String)
    (h : ∀ p ∈ l₂, p.1 ≠ k) : dictGet (l₁ ++ l₂) k = dictGet l₁ k := by
  unfold dictGet
  rw [List.reverse_append, lookup_append_or,
    lookup_eq_none_of_keys_ne l₂.reverse k (fun p hp => h p (List.mem_reverse.mp hp))]
  simp [Option.or]

theorem dictGet_roleEntry_self (role : String) (x : Option String) :
    dictGet (roleEntry role x) role = x := by
  cases x <;> simp [dictGet, roleEntry, List.lookup]

theorem dictGet_append_left_ne (l₁ l₂ : List (String × String)) (k : String)
    (h : ∀ p ∈ l₁, p.1 ≠ k) : dictGet (l₁ ++ l₂) k = dictGet l₂ k := by
  unfold dictGet
  rw [List.reverse_append, lookup_append_or,
    lookup_eq_none_of_keys_ne l₁.reverse k (fun p hp => h p (List.mem_reverse.mp hp))]
  cases l₂.reverse.lookup k <;> simp [Option.or]

theorem keys_ne_roleEntry (r : String) (x : Option String) (k : String) (h : r ≠ k) :
    ∀ p ∈ roleEntry r x, p.1 ≠ k :=
  fun p hp => by rw [roleEntry_key r x p hp]; exact h

theorem keys_ne_append {l₁ l₂ : List (String × String)} {k : String}
    (h₁ : ∀ p ∈ l₁, p.1 ≠ k) (h₂ : ∀ p ∈ l₂, p.1 ≠ k) :
    ∀ p ∈ l₁ ++ l₂, p.1 ≠ k := by
  intro p hp
  rcases List.mem_append.mp hp with h | h
  · exact h₁ p h
  · exact h₂ p h

theorem dictGet_cat3_pos1 (r₁ r₂ r₃ k : String) (x₁ x₂ x₃ : Option String)
    (e : k = r₁) (h₂ : r₂ ≠ k) (h₃ : r₃ ≠ k) :
    dictGet (roleEntry r₁ x₁ ++ roleEntry r₂ x₂ ++ roleEntry r₃ x₃) k = x₁ := by
  rw [dictGet_append_right_ne _ _ _ (keys_ne_roleEntry _ _ _ h₃),
    dictGet_append_right_ne _ _ _ (keys_ne_roleEntry _ _ _ h₂), e, dictGet_roleEntry_self]

theorem dictGet_cat3_pos2 (r₁ r₂ r₃ k : String) (x₁ x₂ x₃ : Option String)
    (e : k = r₂) (h₁ : r₁ ≠ k) (h₃ : r₃ ≠ k) :
    dictGet (roleEntry r₁ x₁ ++ roleEntry r₂ x₂ ++ roleEntry r₃ x₃) k = x₂ := by
  rw [dictGet_append_right_ne _ _ _ (keys_ne_roleEntry _ _ _ h₃),
    dictGet_append_left_ne _ _ _ (keys_ne_roleEntry _ _ _ h₁), e, dictGet_roleEntry_self]

theorem dictGet_cat3_pos3 (r₁ r₂ r₃ k : String) (x₁ x₂ x₃ : Option String)
    (e : k = r₃) (h₁ : r₁ ≠ k) (h₂ : r₂ ≠ k) :
    dictGet (roleEntry r₁ x₁ ++ roleEntry r₂ x₂ ++ roleEntry r₃ x₃) k = x₃ := by
  rw [dictGet_append_left_ne _ _ _
      (keys_ne_append (keys_ne_roleEntry _ _ _ h₁) (keys_ne_roleEntry _ _ _ h₂)),
    e, dictGet_roleEntry_self]

theorem dictGet_cat5_pos1 (r₁ r₂ r₃ r₄ r₅ k : String) (x₁ x₂ x₃ x₄ x₅ : Option String)
    (e : k = r₁) (h₂ : r₂ ≠ k) (h₃ : r₃ ≠ k) (h₄ : r₄ ≠ k) (h₅ : r₅ ≠ k) :
    dictGet (roleEntry r₁ x₁ ++ roleEntry r₂ x₂ ++ roleEntry r₃ x₃ ++ roleEntry r₄ x₄ ++
      roleEntry r₅ x₅) k = x₁ := by
  rw [dictGet_append_right_ne _ _ _ (keys_ne_roleEntry _ _ _ h₅),
    dictGet_append_right_ne _ _ _ (keys_ne_roleEntry _ _ _ h₄),
    dictGet_append_right_ne _ _ _ (keys_ne_roleEntry _ _ _ h₃),
    dictGet_append_right_ne _ _ _ (keys_ne_roleEntry _ _ _ h₂), e, dictGet_roleEntry_self]

theorem dictGet_cat5_pos2 (r₁ r₂ r₃ r₄ r₅ k : String) (x₁ x₂ x₃ x₄ x₅ : Option String)
    (e : k = r₂) (h₁ : r₁ ≠ k) (h₃ : r₃ ≠ k) (h₄ : r₄ ≠ k) (h₅ : r₅ ≠ k) :
    dictGet (roleEntry r₁ x₁ ++ roleEntry r₂ x₂ ++ roleEntry r₃ x₃ ++ roleEntry r₄ x₄ ++
      roleEntry r₅ x₅) k = x₂ := by
  rw [dictGet_append_right_ne _ _ _ (keys_ne_roleEntry _ _ _ h₅),
    dictGet_append_right_ne _ _ _ (keys_ne_roleEntry _ _ _ h₄),
    dictGet_append_right_ne _ _ _ (keys_ne_roleEntry _ _ _ h₃),
    dictGet_append_left_ne _ _ _ (keys_ne_roleEntry _ _ _ h₁), e, dictGet_roleEntry_self]

theorem dictGet_cat5_pos3 (r₁ r₂ r₃ r₄ r₅ k : String) (x₁ x₂ x₃ x₄ x₅ : Option String)
    (e : k = r₃) (h₁ : r₁ ≠ k) (h₂ : r₂ ≠ k) (h₄ : r₄ ≠ k) (h₅ : r₅ ≠ k) :
    dictGet (roleEntry r₁ x₁ ++ roleEntry r₂ x₂ ++ roleEntry r₃ x₃ ++ roleEntry r₄ x₄ ++
      roleEntry r₅ x₅) k = x₃ := by
  rw [dictGet_append_right_ne _ _ _ (keys_ne_roleEntry _ _ _ h₅),
    dictGet_append_right_ne _ _ _ (keys_ne_roleEntry _ _ _ h₄),
    dictGet_append_left_ne _ _ _
      (keys_ne_append (keys_ne_roleEntry _ _ _ h₁) (keys_ne_roleEntry _ _ _ h₂)),
    e, dictGet_roleEntry_self]

theorem dictGet_cat5_pos4 (r₁ r₂ r₃ r₄ r₅ k : String) (x₁ x₂ x₃ x₄ x₅ : Option String)
    (e : k = r₄) (h₁ : r₁ ≠ k) (h₂ : r₂ ≠ k) (h₃ : r₃ ≠ k) (h₅ : r₅ ≠ k) :
    dictGet (roleEntry r₁ x₁ ++ roleEntry r₂ x₂ ++ roleEntry r₃ x₃ ++ roleEntry r₄ x₄ ++
      roleEntry r₅ x₅) k = x₄ := by
  rw [dictGet_append_right_ne _ _ _ (keys_ne_roleEntry _ _ _ h₅),
    dictGet_append_left_ne _ _ _
      (keys_ne_append (keys_ne_append (keys_ne_roleEntry _ _ _ h₁)
        (keys_ne_roleEntry _ _ _ h₂)) (keys_ne_roleEntry _ _ _ h₃)),
    e, dictGet_roleEntry_self]

theorem dictGet_cat5_pos5 (r₁ r₂ r₃ r₄ r₅ k : String) (x₁ x₂ x₃ x₄ x₅ : Option String)
    (e : k = r₅) (h₁ : r₁ ≠ k) (h₂ : r₂ ≠ k) (h₃ : r₃ ≠ k) (h₄ : r₄ ≠ k) :
    dictGet (roleEntry r₁ x₁ ++ roleEntry r₂ x₂ ++ roleEntry r₃ x₃ ++ roleEntry r₄ x₄ ++
      roleEntry r₅ x₅) k = x₅ := by
  rw [dictGet_append_left_ne _ _ _
      (keys_ne_append (keys_ne_append (keys_ne_append (keys_ne_roleEntry _ _ _ h₁)
        (keys_ne_roleEntry _ _ _ h₂)) (keys_ne_roleEntry _ _ _ h₃))
        (keys_ne_roleEntry _ _ _ h₄)),
    e, dictGet_roleEntry_self]

theorem auto_detect_books_lat (df : DataFrame) :
    dictGet (auto_detect_columns df "books") "lat" =
      firstMatch df.cols ["lat", "latitude", "y", "coord_y"] := by
  unfold auto_detect_columns
  rw [if_pos rfl]
  rw [dictGet_append_right_ne]
  · rw [dictGet_append_right_ne]
    · rw [dictGet_roleEntry_self, detectRole_eq_firstMatch]
    · intro p hp
      rw [roleEntry_key _ _ _ hp]; decide
  · intro p hp
    rw [roleEntry_key _ _ _ hp]; decide

theorem firstMatch_of_none (cols : List String) (pats : List String)
    (h : ∀ c ∈ cols, strLower c ∉ pats) : firstMatch cols pats = none := by
  induction pats with
  | nil => rfl
  | cons p ps ih =>
    have hf : cols.reverse.find? (fun c => strLower c == p) = none := by
      rw [List.find?_eq_none]
      intro c hc
      have := h c (List.mem_reverse.mp hc)
      simp only [List.mem_cons] at this
      simp [beq_eq_false_iff_ne]
      tauto
    simp only [firstMatch, hf]
    exact ih (fun c hc hm => h c hc (by simp [hm]))

theorem firstMatch_of_first (cols : List String) (p : String) (ps : List String)
    (h : ∃ c ∈ cols, strLower c = p) :
    firstMatch cols (p :: ps) = cols.reverse.find? (fun c => strLower c == p) := by
  have hs : (cols.reverse.find? (fun c => strLower c == p)).isSome := by
    rw [List.find?_isSome]
    obtain ⟨c, hc, hcl⟩ := h
    exact ⟨c, List.mem_reverse.mpr hc, by simp [hcl]⟩
  simp only [firstMatch]
  cases hf : cols.reverse.find? (fun c => strLower c == p)
  · rw [hf] at hs; simp at hs
  · rfl

theorem readBackList_bookPoint (xs : List BookPoint) :
    readBackList jsonToBookPoint (xs.map bookPointToJson) = some xs := by
  induction xs with
  | nil => rfl
  | cons b xs ih => simp [readBackList, ih, bookPointToJson, jsonToBookPoint]

theorem readBackList_volunteer (xs : List Volunteer) :
    readBackList jsonToVolunteer (xs.map volunteerToJson) = some xs := by
  induction xs with
  | nil => rfl
  | cons v xs ih => simp [readBackList, ih, volunteerToJson, jsonToVolunteer]

theorem readBackList_school (xs : List School) :
    readBackList jsonToSchool (xs.map schoolToJson) = some xs := by
  induction xs with
  | nil => rfl
  | cons s xs ih => simp [readBackList, ih, schoolToJson, jsonToSchool]

/-! ### Claims -/

/-- C1: for every table and resolved column mapping, the row coercers
produce exactly one output record per row whose required columns coerce
successfully, in source-row order, and for each failing row no record
but exactly one warning — never a partial record.  The outputs and
warnings are exactly the `filterMap` of the per-row coercion over the
source rows (for `parse_volunteers`, over the index-enumerated rows). -/
theorem row_coercer_one_record_per_surviving_row
    (lat_col lng_col count_col id_col name_col books_col : String) (df : List Row) :
    (parse_book_data df lat_col lng_col count_col).1 =
      df.filterMap (fun r => (coerceBook lat_col lng_col count_col r).toOption) ∧
    (parse_book_data df lat_col lng_col count_col).2 =
      df.filterMap (fun r => warnOf bookWarn (coerceBook lat_col lng_col count_col r)) ∧
    (parse_volunteers df id_col lat_col lng_col name_col books_col).1 =
      df.enum.filterMap
        (fun p => (coerceVolunteer id_col lat_col lng_col name_col books_col p.1 p.2).toOption) ∧
    (parse_volunteers df id_col lat_col lng_col name_col books_col).2 =
      df.enum.filterMap
        (fun p => warnOf volunteerWarn
          (coerceVolunteer id_col lat_col lng_col name_col books_col p.1 p.2)) := by
  refine ⟨?_, ?_, ?_, ?_⟩ <;>
    simp [parse_book_data, parse_volunteers, parseBookRows_eq, parseVolunteerRows_eq, List.enum]

/-- C2: any row whose coercion raises (`ValueError` or `KeyError`) is
discarded whole, contributes exactly one warning, and processing
continues with the next row; every row of the table is either kept or
warned about, so a row-level failure never aborts the table. -/
theorem coercion_failure_drops_row_and_continues :
    (∀ (lat_col lng_col count_col : String) (r : Row) (rest : List Row) (e : PyErr),
      coerceBook lat_col lng_col count_col r = .error e →
      parseBookRows lat_col lng_col count_col (r :: rest) =
        ((parseBookRows lat_col lng_col count_col rest).1,
          bookWarn e :: (parseBookRows lat_col lng_col count_col rest).2)) ∧
    (∀ (id_col lat_col lng_col name_col students_col : String) (idx : Nat) (r : Row)
        (rest : List Row) (e : PyErr),
      coerceSchool id_col lat_col lng_col name_col students_col idx r = .error e →
      parseSchoolRows id_col lat_col lng_col name_col students_col idx (r :: rest) =
        ((parseSchoolRows id_col lat_col lng_col name_col students_col (idx + 1) rest).1,
          schoolWarn e ::
            (parseSchoolRows id_col lat_col lng_col name_col students_col (idx + 1) rest).2)) ∧
    (∀ (lat_col lng_col count_col : String) (df : List Row),
      (parse_book_data df lat_col lng_col count_col).1.length +
        (parse_book_data df lat_col lng_col count_col).2.length = df.length) ∧
    (∀ (id_col lat_col lng_col name_col students_col : String) (df : List Row),
      (parse_schools df id_col lat_col lng_col name_col students_col).1.length +
        (parse_schools df id_col lat_col lng_col name_col students_col).2.length =
          df.length) := by
  refine ⟨?_, ?_, ?_, ?_⟩
  · intro lat_col lng_col count_col r rest e h
    simp only [parseBookRows, h]
  · intro id_col lat_col lng_col name_col students_col idx r rest e h
    simp only [parseSchoolRows, h]
  · intro lat_col lng_col count_col df
    exact parseBookRows_length lat_col lng_col count_col df
  · intro id_col lat_col lng_col name_col students_col df
    exact parseSchoolRows_length id_col lat_col lng_col name_col students_col 0 df

/-- Witness for C2 at a concrete failing first row. -/
theorem coercion_failure_drops_row_and_continues_witness :
    parseBookRows "lat" "lng" "count"
        [[("lat", Value.str "oops")],
         [("lat", Value.float 1), ("lng", Value.float 2), ("count", Value.int 3)]] =
      ([⟨1, 2, 3⟩],
       [bookWarn (.valueError "could not convert string to float: oops")]) := by
  have h := coercion_failure_drops_row_and_continues.1 "lat" "lng" "count"
    [("lat", Value.str "oops")]
    [[("lat", Value.float 1), ("lng", Value.float 2), ("count", Value.int 3)]]
    (.valueError "could not convert string to float: oops") (by decide)
  exact h.trans (by decide)

/-- C5: when the identifier column is absent from every row, each
output record of `parse_volunteers`/`parse_schools` gets the 1-based
position of its source row as its id, and the outputs arise exactly
from coercing each row at its position. -/
theorem sequential_default_ids
    (id_col lat_col lng_col name_col books_col students_col : String) (df : List Row)
    (h : ∀ r ∈ df, r.lookup id_col = none) :
    ((parse_volunteers df id_col lat_col lng_col name_col books_col).1 =
        df.enum.filterMap
          (fun p => (coerceVolunteer id_col lat_col lng_col name_col books_col p.1 p.2).toOption) ∧
      ∀ i, ∀ hi : i < df.length, ∀ v : Volunteer,
        coerceVolunteer id_col lat_col lng_col name_col books_col i (df.get ⟨i, hi⟩) = .ok v →
        v.id = (i : Int) + 1) ∧
    ((parse_schools df id_col lat_col lng_col name_col students_col).1 =
        df.enum.filterMap
          (fun p => (coerceSchool id_col lat_col lng_col name_col students_col p.1 p.2).toOption) ∧
      ∀ i, ∀ hi : i < df.length, ∀ s : School,
        coerceSchool id_col lat_col lng_col name_col students_col i (df.get ⟨i, hi⟩) = .ok s →
        s.id = (i : Int) + 1) := by
  refine ⟨⟨?_, ?_⟩, ⟨?_, ?_⟩⟩
  · simp [parse_volunteers, parseVolunteerRows_eq, List.enum]
  · intro i hi v hv
    exact coerceVolunteer_default_id _ _ _ _ _ _ _ _ (h _ (List.get_mem df i hi)) hv
  · simp [parse_schools, parseSchoolRows_eq, List.enum]
  · intro i hi s hs
    exact coerceSchool_default_id _ _ _ _ _ _ _ _ (h _ (List.get_mem df i hi)) hs

/-- Witness for C5 on a concrete two-row table without an id column. -/
theorem sequential_default_ids_witness :
    (parse_volunteers
        [[("lat", Value.float 1), ("lng", Value.float 2), ("name", Value.str "A"),
          ("books", Value.int 4), ("students", Value.int 7)],
         [("lat", Value.float 3), ("lng", Value.float 4), ("name", Value.str "B"),
          ("books", Value.int 5), ("students", Value.int 8)]]
        "id" "lat" "lng" "name" "books").1 =
      [⟨1, 1, 2, "A", 4⟩, ⟨2, 3, 4, "B", 5⟩] ∧
    (parse_schools
        [[("lat", Value.float 1), ("lng", Value.float 2), ("name", Value.str "A"),
          ("books", Value.int 4), ("students", Value.int 7)],
         [("lat", Value.float 3), ("lng", Value.float 4), ("name", Value.str "B"),
          ("books", Value.int 5), ("students", Value.int 8)]]
        "id" "lat" "lng" "name" "students").1 =
      [⟨1, 1, 2, "A", 7⟩, ⟨2, 3, 4, "B", 8⟩] := by
  have h := sequential_default_ids "id" "lat" "lng" "name" "books" "students"
    [[("lat", Value.float 1), ("lng", Value.float 2), ("name", Value.str "A"),
      ("books", Value.int 4), ("students", Value.int 7)],
     [("lat", Value.float 3), ("lng", Value.float 4), ("name", Value.str "B"),
      ("books", Value.int 5), ("students", Value.int 8)]]
    (by decide)
  exact ⟨h.1.1.trans (by decide), h.2.1.trans (by decide)⟩

/-- C9: when the identifier column is present in a row, its value is
always coerced: a failing coercion drops the whole row with one warning
(the positional default is never used as a fallback), and a succeeding
coercion becomes the record's id. -/
theorem present_id_never_positional_fallback
    (id_col lat_col lng_col name_col books_col students_col : String)
    (idx : Nat) (r : Row) (rest : List Row) (x : Value)
    (hx : r.lookup id_col = some x) :
    (∀ e : PyErr, pyInt x = .error e →
      coerceVolunteer id_col lat_col lng_col name_col books_col idx r = .error e ∧
      parseVolunteerRows id_col lat_col lng_col name_col books_col idx (r :: rest) =
        ((parseVolunteerRows id_col lat_col lng_col name_col books_col (idx + 1) rest).1,
          volunteerWarn e ::
            (parseVolunteerRows id_col lat_col lng_col name_col books_col (idx + 1) rest).2) ∧
      coerceSchool id_col lat_col lng_col name_col students_col idx r = .error e ∧
      parseSchoolRows id_col lat_col lng_col name_col students_col idx (r :: rest) =
        ((parseSchoolRows id_col lat_col lng_col name_col students_col (idx + 1) rest).1,
          schoolWarn e ::
            (parseSchoolRows id_col lat_col lng_col name_col students_col (idx + 1) rest).2)) ∧
    (∀ v : Volunteer,
      coerceVolunteer id_col lat_col lng_col name_col books_col idx r = .ok v →
      pyInt x = .ok v.id) ∧
    (∀ s : School,
      coerceSchool id_col lat_col lng_col name_col students_col idx r = .ok s →
      pyInt x = .ok s.id) := by
  refine ⟨?_, ?_, ?_⟩
  · intro e he
    have hv := coerceVolunteer_bad_id id_col lat_col lng_col name_col books_col idx r x e hx he
    have hs := coerceSchool_bad_id id_col lat_col lng_col name_col students_col idx r x e hx he
    exact ⟨hv, by simp only [parseVolunteerRows, hv], hs, by simp only [parseSchoolRows, hs]⟩
  · intro v hv
    exact coerceVolunteer_present_id _ _ _ _ _ _ _ _ _ hx hv
  · intro s hs
    exact coerceSchool_present_id _ _ _ _ _ _ _ _ _ hx hs

/-- Witness for C9: a present id value failing integer coercion drops
the row and warns. -/
theorem present_id_never_positional_fallback_witness :
    parseVolunteerRows "id" "lat" "lng" "name" "books" 0 [[("id", Value.str "abc")]] =
      ([], [volunteerWarn (.valueError "invalid literal for int with base 10: abc")]) ∧
    parseSchoolRows "id" "lat" "lng" "name" "students" 0 [[("id", Value.str "abc")]] =
      ([], [schoolWarn (.valueError "invalid literal for int with base 10: abc")]) := by
  have h := (present_id_never_positional_fallback "id" "lat" "lng" "name" "books" "students"
    0 [("id", Value.str "abc")] [] (Value.str "abc") (by decide)).1
    (.valueError "invalid literal for int with base 10: abc") (by decide)
  exact ⟨h.2.1.trans (by decide), h.2.2.2.trans (by decide)⟩

/-- C3 (amended): for each role of each of the three dataset kinds,
the detector's mapping for that role equals `firstMatch` of the role's
fixed candidate list — the first candidate that matches a table column
case-insensitively, resolved to the LAST table column whose lowercased
name equals it (a later duplicate shadows an earlier column in the
case-insensitive index) — and, for any candidate list, a matched first
candidate yields exactly that last column while a table matching no
candidate leaves the role omitted (`none`). -/
theorem column_detector_first_candidate (df : DataFrame) :
    (dictGet (auto_detect_columns df "books") "lat" =
        firstMatch df.cols ["lat", "latitude", "y", "coord_y"] ∧
      dictGet (auto_detect_columns df "books") "lng" =
        firstMatch df.cols ["lng", "lon", "long", "longitude", "x", "coord_x"] ∧
      dictGet (auto_detect_columns df "books") "count" =
        firstMatch df.cols ["count", "books", "book_count", "quantity", "num"]) ∧
    (dictGet (auto_detect_columns df "volunteers") "id" =
        firstMatch df.cols ["id", "volunteer_id", "vol_id"] ∧
      dictGet (auto_detect_columns df "volunteers") "lat" =
        firstMatch df.cols ["lat", "latitude", "y"] ∧
      dictGet (auto_detect_columns df "volunteers") "lng" =
        firstMatch df.cols ["lng", "lon", "long", "longitude", "x"] ∧
      dictGet (auto_detect_columns df "volunteers") "name" =
        firstMatch df.cols ["name", "volunteer_name", "vol_name", "full_name"] ∧
      dictGet (auto_detect_columns df "volunteers") "books" =
        firstMatch df.cols ["books", "book_count", "books_distributed"]) ∧
    (dictGet (auto_detect_columns df "schools") "id" =
        firstMatch df.cols ["id", "school_id"] ∧
      dictGet (auto_detect_columns df "schools") "lat" =
        firstMatch df.cols ["lat", "latitude", "y"] ∧
      dictGet (auto_detect_columns df "schools") "lng" =
        firstMatch df.cols ["lng", "lon", "long", "longitude", "x"] ∧
      dictGet (auto_detect_columns df "schools") "name" =
        firstMatch df.cols ["name", "school_name", "school"] ∧
      dictGet (auto_detect_columns df "schools") "students" =
        firstMatch df.cols ["students", "student_count", "num_students"]) ∧
    (∀ (p : String) (ps : List String), (∃ c ∈ df.cols, strLower c = p) →
      firstMatch df.cols (p :: ps) = df.cols.reverse.find? (fun c => strLower c == p)) ∧
    (∀ pats : List String, (∀ c ∈ df.cols, strLower c ∉ pats) →
      firstMatch df.cols pats = none) := by
  refine ⟨⟨auto_detect_books_lat df, ?_, ?_⟩, ⟨?_, ?_, ?_, ?_, ?_⟩, ⟨?_, ?_, ?_, ?_, ?_⟩,
    ?_, ?_⟩
  · unfold auto_detect_columns
    rw [if_pos rfl,
      dictGet_cat3_pos2 "lat" "lng" "count" "lng" _ _ _ rfl (by decide) (by decide)]
    exact detectRole_eq_firstMatch df _
  · unfold auto_detect_columns
    rw [if_pos rfl,
      dictGet_cat3_pos3 "lat" "lng" "count" "count" _ _ _ rfl (by decide) (by decide)]
    exact detectRole_eq_firstMatch df _
  · unfold auto_detect_columns
    rw [if_neg (by decide), if_pos rfl,
      dictGet_cat5_pos1 "id" "lat" "lng" "name" "books" "id" _ _ _ _ _ rfl
        (by decide) (by decide) (by decide) (by decide)]
    exact detectRole_eq_firstMatch df _
  · unfold auto_detect_columns
    rw [if_neg (by decide), if_pos rfl,
      dictGet_cat5_pos2 "id" "lat" "lng" "name" "books" "lat" _ _ _ _ _ rfl
        (by decide) (by decide) (by decide) (by decide)]
    exact detectRole_eq_firstMatch df _
  · unfold auto_detect_columns
    rw [if_neg (by decide), if_pos rfl,
      dictGet_cat5_pos3 "id" "lat" "lng" "name" "books" "lng" _ _ _ _ _ rfl
        (by decide) (by decide) (by decide) (by decide)]
    exact detectRole_eq_firstMatch df _
  · unfold auto_detect_columns
    rw [if_neg (by decide), if_pos rfl,
      dictGet_cat5_pos4 "id" "lat" "lng" "name" "books" "name" _ _ _ _ _ rfl
        (by decide) (by decide) (by decide) (by decide)]
    exact detectRole_eq_firstMatch df _
  · unfold auto_detect_columns
    rw [if_neg (by decide), if_pos rfl,
      dictGet_cat5_pos5 "id" "lat" "lng" "name" "books" "books" _ _ _ _ _ rfl
        (by decide) (by decide) (by decide) (by decide)]
    exact detectRole_eq_firstMatch df _
  · unfold auto_detect_columns
    rw [if_neg (by decide), if_neg (by decide), if_pos rfl,
      dictGet_cat5_pos1 "id" "lat" "lng" "name" "students" "id" _ _ _ _ _ rfl
        (by decide) (by decide) (by decide) (by decide)]
    exact detectRole_eq_firstMatch df _
  · unfold auto_detect_columns
    rw [if_neg (by decide), if_neg (by decide), if_pos rfl,
      dictGet_cat5_pos2 "id" "lat" "lng" "name" "students" "lat" _ _ _ _ _ rfl
        (by decide) (by decide) (by decide) (by decide)]
    exact detectRole_eq_firstMatch df _
  · unfold auto_detect_columns
    rw [if_neg (by decide), if_neg (by decide), if_pos rfl,
      dictGet_cat5_pos3 "id" "lat" "lng" "name" "students" "lng" _ _ _ _ _ rfl
        (by decide) (by decide) (by decide) (by decide)]
    exact detectRole_eq_firstMatch df _
  · unfold auto_detect_columns
    rw [if_neg (by decide), if_neg (by decide), if_pos rfl,
      dictGet_cat5_pos4 "id" "lat" "lng" "name" "students" "name" _ _ _ _ _ rfl
        (by decide) (by decide) (by decide) (by decide)]
    exact detectRole_eq_firstMatch df _
  · unfold auto_detect_columns
    rw [if_neg (by decide), if_neg (by decide), if_pos rfl,
      dictGet_cat5_pos5 "id" "lat" "lng" "name" "students" "students" _ _ _ _ _ rfl
        (by decide) (by decide) (by decide) (by decide)]
    exact detectRole_eq_firstMatch df _
  · intro p ps h
    exact firstMatch_of_first df.cols p ps h
  · intro pats h
    exact firstMatch_of_none df.cols pats h

/-- C3 counterexample: a table containing a column literally named
`lat` for which the detector does NOT map the role `lat` to `"lat"` —
the later case-variant duplicate `LAT` overwrites it in the
case-insensitive index. -/
theorem column_detector_literal_lat_counterexample :
    "lat" ∈ (DataFrame.mk ["lat", "LAT"] []).cols ∧
    dictGet (auto_detect_columns (DataFrame.mk ["lat", "LAT"] []) "books") "lat" =
      some "LAT" ∧
    some "LAT" ≠ some "lat" := by
  exact ⟨by decide, by decide, by decide⟩

/-- Witness for the amended C3, across kinds: the first matching
candidate resolves to the last case-insensitive occurrence (`lat` of
books, `name` of volunteers), and a table matching no candidate gets no
entry for the role (`students` of schools). -/
theorem column_detector_first_candidate_witness :
    dictGet (auto_detect_columns (DataFrame.mk ["Name", "LAT", "Longitude"] []) "books")
      "lat" = some "LAT" ∧
    dictGet (auto_detect_columns (DataFrame.mk ["Name", "LAT", "Longitude"] []) "volunteers")
      "name" = some "Name" ∧
    dictGet (auto_detect_columns (DataFrame.mk ["foo"] []) "schools") "students" = none := by
  have h := column_detector_first_candidate (DataFrame.mk ["Name", "LAT", "Longitude"] [])
  have hf := column_detector_first_candidate (DataFrame.mk ["foo"] [])
  refine ⟨?_, ?_, ?_⟩
  · exact h.1.1.trans ((h.2.2.2.1 "lat" ["latitude", "y", "coord_y"]
      ⟨"LAT", by decide, by decide⟩).trans (by decide))
  · exact (h.2.1.2.2.2.1).trans (by decide)
  · exact (hf.2.2.1.2.2.2.2).trans
      (hf.2.2.2.2 ["students", "student_count", "num_students"] (by decide))

/-- C4: sheet resolution per dataset kind — the explicit name when one
is given, otherwise the 1st sheet for books, the 2nd for volunteers
(1st if only one sheet), the 3rd for schools (1st if fewer than three);
and the 3-sheet scenario with no explicit selection reads books,
volunteers and schools from sheets 1, 2 and 3 respectively. -/
theorem sheet_resolution_defaults :
    (∀ (s : String) (avail : List String), s ≠ "" →
      resolveBooksSheet (some s) avail = s ∧
      resolveVolunteersSheet (some s) avail = s ∧
      resolveSchoolsSheet (some s) avail = s) ∧
    (∀ avail : List String,
      resolveBooksSheet none avail = avail.getD 0 "" ∧
      (avail.length > 1 → resolveVolunteersSheet none avail = avail.getD 1 "") ∧
      (avail.length ≤ 1 → resolveVolunteersSheet none avail = avail.getD 0 "") ∧
      (avail.length > 2 → resolveSchoolsSheet none avail = avail.getD 2 "") ∧
      (avail.length ≤ 2 → resolveSchoolsSheet none avail = avail.getD 0 "")) ∧
    (∀ (p n₁ n₂ n₃ : String) (d₁ d₂ d₃ : DataFrame) (mb mv ms : List (String × String)),
      n₂ ≠ n₁ → n₃ ≠ n₁ → n₃ ≠ n₂ →
      parse_excel_file p true [(n₁, d₁), (n₂, d₂), (n₃, d₃)] none
          (some [("books", mb), ("volunteers", mv), ("schools", ms)]) =
        .ok ⟨(parse_book_data d₁.rows (mappingGet mb "lat" "lat") (mappingGet mb "lng" "lng")
                (mappingGet mb "count" "count")).1,
             (parse_volunteers d₂.rows (mappingGet mv "id" "id") (mappingGet mv "lat" "lat")
                (mappingGet mv "lng" "lng") (mappingGet mv "name" "name")
                (mappingGet mv "books" "books")).1,
             (parse_schools d₃.rows (mappingGet ms "id" "id") (mappingGet ms "lat" "lat")
                (mappingGet ms "lng" "lng") (mappingGet ms "name" "name")
                (mappingGet ms "students" "students")).1⟩) := by
  refine ⟨?_, ?_, ?_⟩
  · intro s avail h
    refine ⟨?_, ?_, ?_⟩ <;>
      simp [resolveBooksSheet, resolveVolunteersSheet, resolveSchoolsSheet, pyOr, h]
  · intro avail
    refine ⟨rfl, ?_, ?_, ?_, ?_⟩ <;> intro h <;>
      simp [resolveVolunteersSheet, resolveSchoolsSheet, pyOr] <;> omega
  · intro p n₁ n₂ n₃ d₁ d₂ d₃ mb mv ms h21 h31 h32
    have b21 : (n₂ == n₁) = false := beq_eq_false_iff_ne.mpr h21
    have b31 : (n₃ == n₁) = false := beq_eq_false_iff_ne.mpr h31
    have b32 : (n₃ == n₂) = false := beq_eq_false_iff_ne.mpr h32
    have hb : loadBooks [(n₁, d₁), (n₂, d₂), (n₃, d₃)] defaultSheetNames
        [("books", mb), ("volunteers", mv), ("schools", ms)] =
        (parse_book_data d₁.rows (mappingGet mb "lat" "lat") (mappingGet mb "lng" "lng")
          (mappingGet mb "count" "count")).1 := by
      simp [loadBooks, defaultSheetNames, List.lookup, resolveBooksSheet, pyOr]
    have hv : loadVolunteers [(n₁, d₁), (n₂, d₂), (n₃, d₃)] defaultSheetNames
        [("books", mb), ("volunteers", mv), ("schools", ms)] =
        (parse_volunteers d₂.rows (mappingGet mv "id" "id") (mappingGet mv "lat" "lat")
          (mappingGet mv "lng" "lng") (mappingGet mv "name" "name")
          (mappingGet mv "books" "books")).1 := by
      simp [loadVolunteers, defaultSheetNames, List.lookup, resolveVolunteersSheet, pyOr, b21]
    have hs : loadSchools [(n₁, d₁), (n₂, d₂), (n₃, d₃)] defaultSheetNames
        [("books", mb), ("volunteers", mv), ("schools", ms)] =
        (parse_schools d₃.rows (mappingGet ms "id" "id") (mappingGet ms "lat" "lat")
          (mappingGet ms "lng" "lng") (mappingGet ms "name" "name")
          (mappingGet ms "students" "students")).1 := by
      simp [loadSchools, defaultSheetNames, List.lookup, resolveSchoolsSheet, pyOr, b31, b32]
    calc parse_excel_file p true [(n₁, d₁), (n₂, d₂), (n₃, d₃)] none
          (some [("books", mb), ("volunteers", mv), ("schools", ms)]) =
        .ok ⟨loadBooks [(n₁, d₁), (n₂, d₂), (n₃, d₃)] defaultSheetNames
              [("books", mb), ("volunteers", mv), ("schools", ms)],
            loadVolunteers [(n₁, d₁), (n₂, d₂), (n₃, d₃)] defaultSheetNames
              [("books", mb), ("volunteers", mv), ("schools", ms)],
            loadSchools [(n₁, d₁), (n₂, d₂), (n₃, d₃)] defaultSheetNames
              [("books", mb), ("volunteers", mv), ("schools", ms)]⟩ := rfl
      _ = _ := by rw [hb, hv, hs]

/-- Witness for C4 on a concrete explicit name and a concrete 3-sheet
workbook. -/
theorem sheet_resolution_defaults_witness :
    resolveBooksSheet (some "Custom") ["A", "B"] = "Custom" ∧
    parse_excel_file "wb.xlsx" true
        [("S1", ⟨[], []⟩), ("S2", ⟨[], []⟩), ("S3", ⟨[], []⟩)] none
        (some [("books", []), ("volunteers", []), ("schools", [])]) =
      .ok ⟨[], [], []⟩ := by
  have h1 := (sheet_resolution_defaults.1 "Custom" ["A", "B"] (by decide)).1
  have h3 := sheet_resolution_defaults.2.2 "wb.xlsx" "S1" "S2" "S3" ⟨[], []⟩ ⟨[], []⟩ ⟨[], []⟩
    [] [] [] (by decide) (by decide) (by decide)
  exact ⟨h1, h3.trans (by decide)⟩

/-- C6: the loader fails with `FileNotFoundError` exactly when the file
does not exist — on an existing file it always returns the aggregate —
and a dataset kind whose resolved explicit sheet name is not among the
workbook's sheets contributes an empty sequence instead of an error. -/
theorem not_found_iff_and_missing_sheet_skip (p : String)
    (sheets : List (String × DataFrame)) (sn : List (String × Option String))
    (cm : List (String × List (String × String))) :
    (∀ sno cmo, parse_excel_file p false sheets sno cmo =
        .error (.notFound ("Excel file not found: " ++ p))) ∧
    (∀ sno cmo, parse_excel_file p true sheets sno cmo =
        .ok ⟨loadBooks sheets (sno.getD defaultSheetNames) (cmo.getD []),
             loadVolunteers sheets (sno.getD defaultSheetNames) (cmo.getD []),
             loadSchools sheets (sno.getD defaultSheetNames) (cmo.getD [])⟩) ∧
    (∀ sb, sn.lookup "books" = some (some sb) → sb ≠ "" → sb ∉ sheets.map (·.1) →
      loadBooks sheets sn cm = []) ∧
    (∀ sv, sn.lookup "volunteers" = some (some sv) → sv ≠ "" → sv ∉ sheets.map (·.1) →
      loadVolunteers sheets sn cm = []) ∧
    (∀ sc, sn.lookup "schools" = some (some sc) → sc ≠ "" → sc ∉ sheets.map (·.1) →
      loadSchools sheets sn cm = []) := by
  refine ⟨fun sno cmo => rfl, fun sno cmo => rfl, ?_, ?_, ?_⟩
  · intro sb h1 h2 h3
    simp [loadBooks, h1, resolveBooksSheet, pyOr, h2, h3]
  · intro sv h1 h2 h3
    simp [loadVolunteers, h1, resolveVolunteersSheet, pyOr, h2, h3]
  · intro sc h1 h2 h3
    simp [loadSchools, h1, resolveSchoolsSheet, pyOr, h2, h3]

/-- Witness for C6: a missing file fails, and an explicit sheet name
absent from the workbook yields an empty books dataset. -/
theorem not_found_iff_and_missing_sheet_skip_witness :
    parse_excel_file "missing.xlsx" false [("S1", ⟨[], []⟩)] none none =
      .error (.notFound "Excel file not found: missing.xlsx") ∧
    loadBooks [("S1", ⟨[], []⟩)] [("books", some "Nope")] [] = [] := by
  have h := not_found_iff_and_missing_sheet_skip "missing.xlsx" [("S1", ⟨[], []⟩)]
    [("books", some "Nope")] []
  exact ⟨(h.1 none none).trans (by decide), h.2.2.1 "Nope" (by decide) (by decide) (by decide)⟩

/-- C7: the JSON document written by `export_to_json` — one object with
the keys `bookData`, `volunteers` and `schools` — reads back to a
structurally identical aggregate: the same three keys, array lengths
and field values, i.e. exactly the in-memory aggregate. -/
theorem json_export_round_trip (d : ParseResult) :
    export_to_json d = dumpJson 0 (aggregateToJson d) ∧
    jsonToAggregate (aggregateToJson d) = some d := by
  refine ⟨rfl, ?_⟩
  simp [aggregateToJson, jsonToAggregate, readBackList_bookPoint, readBackList_volunteer,
    readBackList_school]

/-- C8: the TypeScript export begins with the fixed header comment and
consists of exactly three exported constant declarations named
`bookData`, `volunteers` and `schools`, in that order, each initialised
to the JSON literal of its array, semicolon-terminated and separated by
blank lines. -/
theorem typescript_export_structure (d : ParseResult) :
    ("// Auto-generated from Excel file\n").data <+: (export_to_typescript d).data ∧
    export_to_typescript d =
      "// Auto-generated from Excel file\n" ++ "// Book Data\n" ++
        tsDeclaration "bookData" (d.bookData.map bookPointToJson) ++ "\n\n" ++
        "// Volunteers\n" ++ tsDeclaration "volunteers" (d.volunteers.map volunteerToJson) ++
        "\n\n" ++ "// Schools\n" ++ tsDeclaration "schools" (d.schools.map schoolToJson) ++
        "\n" := by
  constructor
  · exact List.prefix_append _ _
  · have m1 : ∀ r : String,
        "export const " ++ ("bookData" ++ (" = " ++ r)) = "export const bookData = " ++ r := by
      intro r
      rw [← String.append_assoc, ← String.append_assoc]
      exact congrArg (· ++ r) rfl
    have m2 : ∀ r : String,
        "export const " ++ ("volunteers" ++ (" = " ++ r)) =
          "export const volunteers = " ++ r := by
      intro r
      rw [← String.append_assoc, ← String.append_assoc]
      exact congrArg (· ++ r) rfl
    have m3 : ∀ r : String,
        "export const " ++ ("schools" ++ (" = " ++ r)) = "export const schools = " ++ r := by
      intro r
      rw [← String.append_assoc, ← String.append_assoc]
      exact congrArg (· ++ r) rfl
    have m4 : ∀ r : String, ";" ++ ("\n\n" ++ r) = ";\n\n" ++ r := by
      intro r
      rw [← String.append_assoc]
      exact congrArg (· ++ r) rfl
    have m5 : (";" ++ "\n" : String) = ";\n" := rfl
    simp only [export_to_typescript, tsDeclaration, String.append_assoc, m1, m2, m3, m4, m5]

/-- C10: any `output_format` whose lowercasing is neither `ts` nor
`typescript` — e.g. an unrecognized value like `xml`, or the omitted
default — selects the JSON exporter writing to the given output file or
`data.json`, and is never treated as an error. -/
theorem unrecognized_format_writes_json (fmt : String) (out : Option String) (d : ParseResult)
    (h1 : strLower fmt ≠ "ts") (h2 : strLower fmt ≠ "typescript") :
    mainExport d (some fmt) out = (pyOr out "data.json", export_to_json d) ∧
    mainExport d none out = (pyOr out "data.json", export_to_json d) := by
  constructor
  · simp [mainExport, h1, h2]
  · simp only [mainExport, Option.getD]
    rw [if_neg (by decide)]

/-- Witness for C10 on the unrecognized format `xml`. -/
theorem unrecognized_format_writes_json_witness :
    mainExport ⟨[], [], []⟩ (some "xml") none = ("data.json", export_to_json ⟨[], [], []⟩) := by
  exact (unrecognized_format_writes_json "xml" none ⟨[], [], []⟩ (by decide)
    (by decide)).1.trans rfl

end ParseExcel
